import Mathlib

/-!
Verification of the product pricing / serialization logic of the
online-store-drf repository (store/api/serializers.py, store/api/views.py).

Conventions of the embedding:
* Python `Decimal` arithmetic is modelled by `ℚ` (exact, no rounding).
* A DRF serializer's `validated_data` dictionary is modelled both as a
  structure (for typed access) and as an association list of
  (field name, value) pairs (for the string-keyed subscript accesses that
  the view code performs); per DRF, its keys are exactly the names of the
  declared writable fields.
* Raising an exception that the handler does not catch is modelled by a
  dedicated result constructor.
* `LOSS_FACTOR` lives in config/constants.py, which is not under src/; it
  is passed to the pricing rule as an explicit parameter `lf` (the spec
  fixes 0 < LOSS_FACTOR ≤ 1 and the worked example uses 0.8).
-/

namespace OnlineStore

/-- A value stored in a serialized representation (a Python dict value). -/
inductive Value where
  | str (s : String)
  | num (q : ℚ)
  | int (i : Int)
  | bool (b : Bool)
deriving DecidableEq, Repr

/-- A serialized representation: an ordered dictionary, modelled as an
association list from field names to values. -/
abbrev Record := List (String × Value)

/-- Keys of a record, in order. -/
def recordKeys (r : Record) : List String := r.map Prod.fst

/-- Dictionary subscript access `data[key]`: `none` models a `KeyError`. -/
def recordLookup (r : Record) (key : String) : Option Value :=
  r.lookup key

/-- The validation-error message raised by `ProductSerializer.validate`
(serializers.py line 61-63). -/
def pricingErrorMessage : String :=
  "Product price after applying discount cannot be lower than the cost price."

/-- The `attrs` dictionary as seen by `ProductSerializer.validate`: only the
three fields the method reads, each optional because `attrs.get(key, 0)` is
used (a field can be absent, e.g. in a partial update). -/
structure ValidatedAttrs where
  cost_price : Option ℚ
  price : Option ℚ
  discount : Option ℚ
deriving DecidableEq, Repr

/-- `ProductSerializer.validate` (serializers.py lines 47-64): computes
`min_acceptable_price = cost_price * LOSS_FACTOR` and
`discounted_price = price * (1 - discount / 100)` with `attrs.get(_, 0)`
defaults, raises a ValidationError when `discounted_price <
min_acceptable_price`, and returns `attrs` otherwise.  `lf` is the
`LOSS_FACTOR` constant. -/
def productValidate (lf : ℚ) (attrs : ValidatedAttrs) : Except String ValidatedAttrs :=
  let cost_price := attrs.cost_price.getD 0
  let price := attrs.price.getD 0
  let discount := attrs.discount.getD 0
  let min_acceptable_price := cost_price * lf
  let discounted_price := price * (1 - discount / 100)
  if discounted_price < min_acceptable_price then
    .error pricingErrorMessage
  else
    .ok attrs

/-- A persisted Category row ({id, name}). -/
structure Category where
  id : Nat
  name : String
deriving DecidableEq, Repr

/-- A persisted Product row (store/models.py fields used by the API). -/
structure Product where
  id : Nat
  name : String
  category : Nat
  price : ℚ
  quantity : Int
  discount : ℚ
  available : Bool
  cost_price : ℚ
deriving DecidableEq, Repr

/-- The relational store: the Product and Category collections. -/
structure Store where
  products : List Product
  categories : List Category
deriving DecidableEq, Repr

/-- Modelled from the spec: `DiscountPriceMixin.get_discounted_price`
(store/api/mixins.py is not under src/).  Spec §3 and glossary:
"discounted_price = price × (1 − discount/100), computed at read time". -/
def get_discounted_price (price discount : ℚ) : ℚ :=
  price * (1 - discount / 100)

/-- Modelled from the spec: `DiscountPriceMixin.remove_discount_fields`
(store/api/mixins.py is not under src/).  Spec §4.2: "Produces an output
record where the raw `discount` field is removed from the externally
visible shape for listing and retrieval views"; removal of an absent field
is a no-op. -/
def remove_discount_fields (data : Record) : Record :=
  data.filter (fun kv => kv.1 ≠ "discount")

/-- `ProductSearchSerializer.to_representation` (serializers.py lines 8-15):
the declared read-only fields name, price, discounted_price in order, then
`remove_discount_fields` applied to the result. -/
def productSearchRepr (p : Product) : Record :=
  remove_discount_fields
    [("name", .str p.name),
     ("price", .num p.price),
     ("discounted_price", .num (get_discounted_price p.price p.discount))]

/-- `ProductDetailSerializer.to_representation` (serializers.py lines 19-31):
the declared read-only fields in order (category sourced from
`category.name`, timestamps formatted to strings), then
`remove_discount_fields` applied to the result. -/
def productDetailRepr (p : Product) (categoryName createdAt updatedAt : String) : Record :=
  remove_discount_fields
    [("name", .str p.name),
     ("category", .str categoryName),
     ("price", .num p.price),
     ("discounted_price", .num (get_discounted_price p.price p.discount)),
     ("discount", .num p.discount),
     ("quantity", .int p.quantity),
     ("created_at", .str createdAt),
     ("updated_at", .str updatedAt)]

/-- `ProductSerializer(product).data` (serializers.py lines 35-45): the full
CRUD/administrative representation, all declared fields in order, no
projection applied. -/
def productFullRepr (p : Product) (categoryName createdAt updatedAt : String) : Record :=
  [("id", .int p.id),
   ("name", .str p.name),
   ("category", .str categoryName),
   ("price", .num p.price),
   ("quantity", .int p.quantity),
   ("discount", .num p.discount),
   ("available", .bool p.available),
   ("cost_price", .num p.cost_price),
   ("created_at", .str createdAt),
   ("updated_at", .str updatedAt)]

/-- The serializer classes the views dispatch between. -/
inductive SerializerClass where
  | productSearch
  | productDetail
  | product
  | productPartialUpdate
  | category
deriving DecidableEq, Repr

/-- `ProductSearchViewSet.get_serializer_class` (views.py lines 31-39):
dictionary lookup on the action name; `none` models the
`raise Exception(...)` taken when no serializer is registered for the
action. -/
def searchViewSerializerClass (action : String) : Option SerializerClass :=
  ([("list", SerializerClass.productSearch),
    ("retrieve", SerializerClass.productDetail)] : List (String × SerializerClass)).lookup action

/-- `ProductDetailUpdateAPIView.get_serializer_class` (views.py lines
159-169): dictionary lookup on the lower-cased HTTP method; `none` models
the `raise Exception(...)` taken when no serializer is registered for the
method. -/
def detailViewSerializerClass (method : String) : Option SerializerClass :=
  ([("put", SerializerClass.product),
    ("patch", SerializerClass.productPartialUpdate),
    ("get", SerializerClass.product)] : List (String × SerializerClass)).lookup method

/-- The incoming body of a Create Product request, as `request.data` keyed by
the writable declared fields of `ProductSerializer`; `none` means the field
is absent from the request. -/
structure ProductCreateRequest where
  name : Option String
  category : Option String
  price : Option ℚ
  quantity : Option Int
  discount : Option ℚ
  available : Option Bool
  cost_price : Option ℚ
deriving DecidableEq, Repr

/-- A typed view of `ProductSerializer.validated_data` after a successful
`is_valid()`: every writable field present, with the declared defaults
(`discount=0`, `available=True`) filled in. -/
structure ValidatedProduct where
  name : String
  category : String
  price : ℚ
  quantity : Int
  discount : ℚ
  available : Bool
  cost_price : ℚ
deriving DecidableEq, Repr

/-- `ProductSerializer.is_valid()` (serializers.py lines 35-64, per DRF
field semantics): required fields name, category, price, quantity,
cost_price must be present, CharField max lengths enforced (name ≤ 50,
category ≤ 25), declared defaults applied to absent discount/available,
and then `ProductSerializer.validate` must pass.  `none` means `is_valid()`
is false and the view answers 400 with the field errors. -/
def productSerializerIsValid (lf : ℚ) (req : ProductCreateRequest) :
    Option ValidatedProduct :=
  match req.name, req.category, req.price, req.quantity, req.cost_price with
  | some n, some c, some p, some q, some cp =>
    if n.length ≤ 50 ∧ c.length ≤ 25 then
      let d := req.discount.getD 0
      let av := req.available.getD true
      match productValidate lf ⟨some cp, some p, some d⟩ with
      | .ok _ => some ⟨n, c, p, q, d, av, cp⟩
      | .error _ => none
    else none
  | _, _, _, _, _ => none

/-- The `validated_data` dictionary of `ProductSerializer` as the view code
subscripts it: per DRF its keys are exactly the writable declared field
names, in declaration order. -/
def validatedDataRecord (v : ValidatedProduct) : Record :=
  [("name", .str v.name),
   ("category", .str v.category),
   ("price", .num v.price),
   ("quantity", .int v.quantity),
   ("discount", .num v.discount),
   ("available", .bool v.available),
   ("cost_price", .num v.cost_price)]

/-- Outcome of `ProductCreateAPIView.post`.  `keyError k` models an
exception escaping the handler (`except` at line 125 catches only
`ObjectDoesNotExist`), i.e. an HTTP 500, raised by the dictionary
subscript `validated_data[k]` on an absent key `k`. -/
inductive CreateResult where
  | validationError
  | categoryNotFound
  | nameConflict
  | created (p : Product)
  | keyError (key : String)
deriving DecidableEq, Repr

/-- `Category.objects.get(id=v)`: Django coerces the supplied value to the
integer primary key. -/
def valueMatchesId (v : Value) (i : Nat) : Bool :=
  match v with
  | .str s => s = toString i
  | .int n => n = (i : Int)
  | .num q => q = (i : ℚ)
  | .bool _ => false

/-- A fresh id for a created row (system-assigned, unique). -/
def nextProductId (s : Store) : Nat :=
  (s.products.map Product.id).foldr max 0 + 1

/-- `ProductCreateAPIView.post` (views.py lines 116-146), step by step:
1. `serializer.is_valid()`; on failure answer 400 (`validationError`).
2. Evaluate `serializer.validated_data["category_id"]` (line 124).  The
   subscript raises `KeyError` when the key is absent; the surrounding
   `try` catches only `ObjectDoesNotExist`, so a `KeyError` escapes.
3. `Category.objects.get(id=...)`; on `ObjectDoesNotExist` answer 400
   ("This category ... exist") (`categoryNotFound`).
4. Duplicate-name check on `validated_data["name"]`; answer 400 on a match
   (`nameConflict`).
5. `Product.objects.create(...)` and answer 201 with the created row. -/
def productCreatePost (lf : ℚ) (store : Store) (req : ProductCreateRequest) :
    CreateResult × Store :=
  match productSerializerIsValid lf req with
  | none => (.validationError, store)
  | some vd =>
    match recordLookup (validatedDataRecord vd) "category_id" with
    | none => (.keyError "category_id", store)
    | some idv =>
      match store.categories.find? (fun c => valueMatchesId idv c.id) with
      | none => (.categoryNotFound, store)
      | some cat =>
        if store.products.any (fun p => p.name = vd.name) then
          (.nameConflict, store)
        else
          let p : Product :=
            { id := nextProductId store, name := vd.name, category := cat.id,
              price := vd.price, quantity := vd.quantity, discount := vd.discount,
              available := vd.available, cost_price := vd.cost_price }
          (.created p, { store with products := store.products ++ [p] })

/-- The incoming body of a PATCH (partial update) request: every field
optional. -/
abbrev PartialUpdateRequest := ProductCreateRequest

/-- The price/discount/cost_price triple obtained by merging the stored
product with the supplied fields: for any field not supplied, the stored
value is used. -/
def mergedTriple (inst : Product) (req : PartialUpdateRequest) : ℚ × ℚ × ℚ :=
  (req.cost_price.getD inst.cost_price,
   req.price.getD inst.price,
   req.discount.getD inst.discount)

/-- The CharField constraints of the partial schema on the supplied fields
(absent fields are not checked). -/
def partialFieldsOk (req : PartialUpdateRequest) : Prop :=
  (∀ n, req.name = some n → n.length ≤ 50) ∧
  (∀ c, req.category = some c → c.length ≤ 25)

instance (req : PartialUpdateRequest) : Decidable (partialFieldsOk req) := by
  unfold partialFieldsOk
  exact instDecidableAnd

/-- Modelled from the spec: `ProductPartialUpdateSerializer` (imported at
views.py line 17; its definition is not under src/).  Spec §4.3/§4.4:
"patch -> partial schema (all fields optional except identity)"; Update
"re-applies Pricing Rule against the *resulting* price/discount/cost_price
triple (using existing values for fields not supplied in a partial
update)".  `none` means `is_valid()` is false (400). -/
def partialUpdateIsValid (lf : ℚ) (inst : Product) (req : PartialUpdateRequest) :
    Option PartialUpdateRequest :=
  if partialFieldsOk req then
    let (cp, p, d) := mergedTriple inst req
    match productValidate lf ⟨some cp, some p, some d⟩ with
    | .ok _ => some req
    | .error _ => none
  else none

/-- Outcome of `ProductDetailUpdateAPIView.update_product` on an existing
instance.  `valueError` models an exception escaping the handler (an HTTP
500): Django's ForeignKey descriptor raises `ValueError` when
`setattr(instance, "category", value)` is given a validated string rather
than a `Category` instance, so a PATCH that supplies `category` aborts
inside the setattr loop and `instance.save()` is never reached. -/
inductive UpdateResult where
  | ok (p : Product)
  | validationError
  | valueError
deriving DecidableEq, Repr

/-- `setattr(instance, attr, value)` for every item of `validated_data`
(views.py lines 211-212), in the case where `validated_data` has no
`category` key: each supplied field overwrites the stored one.  (When
`category` is supplied the loop raises on that assignment and never
completes; `update_product_patch` returns `.valueError` there and this
function is not consulted.) -/
def applyPatch (inst : Product) (req : PartialUpdateRequest) : Product :=
  { inst with
    name := req.name.getD inst.name,
    price := req.price.getD inst.price,
    quantity := req.quantity.getD inst.quantity,
    discount := req.discount.getD inst.discount,
    available := req.available.getD inst.available,
    cost_price := req.cost_price.getD inst.cost_price }

/-- `ProductDetailUpdateAPIView.update_product` with `partial=True`
(views.py lines 203-215) on an existing instance: validate through the
partial serializer, on failure answer 400; otherwise run the setattr loop
over the supplied fields — raising (uncaught, before `save()`) on a
supplied `category`, whose validated value is a string that Django's
ForeignKey descriptor rejects — then save and answer 200 with the patched
row. -/
def update_product_patch (lf : ℚ) (inst : Product) (req : PartialUpdateRequest) :
    UpdateResult :=
  match partialUpdateIsValid lf inst req with
  | none => .validationError
  | some vd =>
    match vd.category with
    | some _ => .valueError
    | none => .ok (applyPatch inst vd)

/-! ## Theorems -/

/-- C1: the Pricing Rule on a triple (cost_price, price, discount) fails
with a ValidationError exactly when `price * (1 - discount/100) <
cost_price * LOSS_FACTOR`, passes on equality (boundary-inclusive), and in
particular with cost_price=100 and LOSS_FACTOR=0.8 the input (price=100,
discount=25) is rejected while (price=100, discount=15) is accepted. -/
theorem C1_pricing_rule :
    (∀ lf cost price disc : ℚ,
        (productValidate lf ⟨some cost, some price, some disc⟩ =
            .error pricingErrorMessage ↔
          price * (1 - disc / 100) < cost * lf) ∧
        (price * (1 - disc / 100) = cost * lf →
          productValidate lf ⟨some cost, some price, some disc⟩ =
            .ok ⟨some cost, some price, some disc⟩)) ∧
    productValidate (4/5) ⟨some 100, some 100, some 25⟩ =
      .error pricingErrorMessage ∧
    productValidate (4/5) ⟨some 100, some 100, some 15⟩ =
      .ok ⟨some 100, some 100, some 15⟩ := by
  refine ⟨fun lf cost price disc => ⟨?_, ?_⟩, ?_, ?_⟩
  · simp only [productValidate, Option.getD_some]
    split
    · simp_all
    · simp_all
  · intro h
    simp only [productValidate, Option.getD_some, h]
    simp
  · norm_num [productValidate]
  · norm_num [productValidate]

/-- C10: in `ProductSerializer.validate`, any of cost_price, price,
discount absent from the validated input is treated as 0; consequently an
input omitting cost_price is checked against a minimum acceptable price of
0 and passes exactly when `price * (1 - discount/100) ≥ 0`, in particular
whenever price ≥ 0 and discount ≤ 100, regardless of any stored
cost_price (which the validator never sees). -/
theorem C10_absent_fields_default_to_zero :
    (∀ (lf : ℚ) (a : ValidatedAttrs),
        productValidate lf a = .error pricingErrorMessage ↔
          a.price.getD 0 * (1 - a.discount.getD 0 / 100) <
            a.cost_price.getD 0 * lf) ∧
    (∀ (lf : ℚ) (p d : Option ℚ),
        (productValidate lf ⟨none, p, d⟩ = .ok ⟨none, p, d⟩ ↔
          0 ≤ p.getD 0 * (1 - d.getD 0 / 100)) ∧
        (0 ≤ p.getD 0 → d.getD 0 ≤ 100 →
          productValidate lf ⟨none, p, d⟩ = .ok ⟨none, p, d⟩)) := by
  constructor
  · intro lf a
    simp only [productValidate]
    split
    · simp_all
    · simp_all
  · intro lf p d
    have hmin : (Option.getD none (0 : ℚ)) * lf = 0 := by simp
    constructor
    · simp only [productValidate, hmin]
      split
      · rename_i h
        simp only [reduceCtorEq, false_iff, not_le]
        exact h
      · rename_i h
        simp only [true_iff]
        exact le_of_not_lt h
    · intro hp hd
      simp only [productValidate, hmin]
      rw [if_neg]
      exact not_lt.mpr (mul_nonneg hp (by linarith))

/-- C8: the Discount Projection is idempotent on the externally visible
fields: removing the discount field twice from any shaped record equals
removing it once, and the listing/detail serializer outputs (which already
had it removed) are fixed points of the projection. -/
theorem C8_projection_idempotent :
    (∀ data : Record,
        remove_discount_fields (remove_discount_fields data) =
          remove_discount_fields data) ∧
    (∀ p : Product,
        remove_discount_fields (productSearchRepr p) = productSearchRepr p) ∧
    (∀ (p : Product) (categoryName createdAt updatedAt : String),
        remove_discount_fields (productDetailRepr p categoryName createdAt updatedAt) =
          productDetailRepr p categoryName createdAt updatedAt) := by
  have h : ∀ data : Record,
      remove_discount_fields (remove_discount_fields data) =
        remove_discount_fields data := by
    intro data
    simp [remove_discount_fields, List.filter_filter]
  exact ⟨h, fun p => h _, fun p c cr up => h _⟩

/-- C9: the serializer dispatch of both views returns the registered class
for each registered operation (list → summary, retrieve → detail;
get/put → full, patch → partial) and raises (modelled by `none`) for every
operation with no registered serializer. -/
theorem C9_serializer_dispatch :
    searchViewSerializerClass "list" = some .productSearch ∧
    searchViewSerializerClass "retrieve" = some .productDetail ∧
    (∀ action : String, action ≠ "list" → action ≠ "retrieve" →
        searchViewSerializerClass action = none) ∧
    detailViewSerializerClass "get" = some .product ∧
    detailViewSerializerClass "put" = some .product ∧
    detailViewSerializerClass "patch" = some .productPartialUpdate ∧
    (∀ method : String, method ≠ "put" → method ≠ "patch" → method ≠ "get" →
        detailViewSerializerClass method = none) := by
  refine ⟨rfl, rfl, ?_, rfl, rfl, rfl, ?_⟩
  · intro a h1 h2
    have e1 : (a == "list") = false := beq_eq_false_iff_ne.mpr h1
    have e2 : (a == "retrieve") = false := beq_eq_false_iff_ne.mpr h2
    simp [searchViewSerializerClass, List.lookup, e1, e2]
  · intro m h1 h2 h3
    have e1 : (m == "put") = false := beq_eq_false_iff_ne.mpr h1
    have e2 : (m == "patch") = false := beq_eq_false_iff_ne.mpr h2
    have e3 : (m == "get") = false := beq_eq_false_iff_ne.mpr h3
    simp [detailViewSerializerClass, List.lookup, e1, e2, e3]

/-- C2: every PATCH of an existing product re-applies the Pricing Rule to
the price/discount/cost_price triple obtained by merging the stored values
with the supplied fields (the validation fails exactly when the merged
triple violates the pricing floor); when the request supplies no category
the passing update returns the row with the supplied fields overwriting
the stored ones; in particular a partial update supplying only a new
discount re-validates against the existing stored price and cost_price,
succeeding exactly when the merged triple satisfies the pricing floor. -/
theorem C2_patch_revalidates_merged_triple :
    (∀ (lf : ℚ) (inst : Product) (req : PartialUpdateRequest),
        partialFieldsOk req →
        (update_product_patch lf inst req = .validationError ↔
          (mergedTriple inst req).2.1 * (1 - (mergedTriple inst req).2.2 / 100) <
            (mergedTriple inst req).1 * lf)) ∧
    (∀ (lf : ℚ) (inst : Product) (req : PartialUpdateRequest),
        partialFieldsOk req → req.category = none →
        (update_product_patch lf inst req = .ok (applyPatch inst req) ↔
          ¬((mergedTriple inst req).2.1 * (1 - (mergedTriple inst req).2.2 / 100) <
            (mergedTriple inst req).1 * lf))) ∧
    (∀ (lf : ℚ) (inst : Product) (d : ℚ),
        (¬(inst.price * (1 - d / 100) < inst.cost_price * lf) →
          update_product_patch lf inst ⟨none, none, none, none, some d, none, none⟩ =
            .ok { inst with discount := d }) ∧
        (inst.price * (1 - d / 100) < inst.cost_price * lf →
          update_product_patch lf inst ⟨none, none, none, none, some d, none, none⟩ =
            .validationError)) := by
  refine ⟨?_, ?_, ?_⟩
  · intro lf inst req hf
    by_cases hlt : req.price.getD inst.price * (1 - req.discount.getD inst.discount / 100) <
        req.cost_price.getD inst.cost_price * lf
    · simp [update_product_patch, partialUpdateIsValid, mergedTriple, hf,
        productValidate, hlt]
    · cases hc : req.category <;>
        simp [update_product_patch, partialUpdateIsValid, mergedTriple, hf,
          productValidate, hlt, hc]
  · intro lf inst req hf hc
    by_cases hlt : req.price.getD inst.price * (1 - req.discount.getD inst.discount / 100) <
        req.cost_price.getD inst.cost_price * lf
    · simp [update_product_patch, partialUpdateIsValid, mergedTriple, hf,
        productValidate, hlt, hc]
    · simp [update_product_patch, partialUpdateIsValid, mergedTriple, hf,
        productValidate, hlt, hc]
  · intro lf inst d
    have hfd : partialFieldsOk
        (⟨none, none, none, none, some d, none, none⟩ : PartialUpdateRequest) := by
      constructor <;> intro x hx <;> cases hx
    constructor
    · intro h
      simp [update_product_patch, partialUpdateIsValid, mergedTriple, hfd,
        productValidate, h, applyPatch]
    · intro h
      simp [update_product_patch, partialUpdateIsValid, mergedTriple, hfd,
        productValidate, h]

/-- C3: every Create Product request that passes schema validation never
persists a product and never answers 201: evaluation of
`serializer.validated_data["category_id"]` (views.py line 124) raises a
`KeyError` that the surrounding `try` does not catch, because the
serializer declares the field under the key "category", so the store is
returned unchanged with an uncaught exception. -/
theorem C3_create_raises_keyError (lf : ℚ) (store : Store)
    (req : ProductCreateRequest) (vd : ValidatedProduct)
    (hvalid : productSerializerIsValid lf req = some vd) :
    productCreatePost lf store req = (.keyError "category_id", store) := by
  unfold productCreatePost
  rw [hvalid]
  simp [recordLookup, validatedDataRecord, List.lookup]

/-- Witness for C3 at a concrete store and schema-valid request. -/
theorem C3_create_raises_keyError_witness :
    productCreatePost (4/5) ⟨[], [⟨1, "Drinkware"⟩]⟩
        ⟨some "Mug", some "Drinkware", some 10, some 3, some 0, some true, some 5⟩ =
      (.keyError "category_id", ⟨[], [⟨1, "Drinkware"⟩]⟩) :=
  C3_create_raises_keyError (4/5) ⟨[], [⟨1, "Drinkware"⟩]⟩
    ⟨some "Mug", some "Drinkware", some 10, some 3, some 0, some true, some 5⟩
    ⟨"Mug", "Drinkware", 10, 3, 0, true, 5⟩ (by
      simp [productSerializerIsValid, productValidate]
      norm_num
      decide)

/-- Counterexample to C4: for a concrete product the retrieve (detail)
representation has no raw discount field. -/
theorem C4_retrieve_discount_absent_cex :
    "discount" ∉ recordKeys
      (productDetailRepr ⟨1, "Mug", 1, 10, 3, 50, true, 5⟩ "Drinkware"
        "2024-01-01 00:00" "2024-01-02 00:00") := by
  decide

/-- C4 (amended): the retrieve (detail) representation of a Product
contains exactly the fields name, category.name, price, discounted_price,
quantity, created_at, updated_at — the raw discount field is removed by
the Discount Projection before output. -/
theorem C4_detail_representation_fields :
    ∀ (p : Product) (categoryName createdAt updatedAt : String),
      recordKeys (productDetailRepr p categoryName createdAt updatedAt) =
        ["name", "category", "price", "discounted_price", "quantity",
         "created_at", "updated_at"] := by
  intro p c cr up
  rfl

/-- C5: the customer-facing listing and retrieval outputs have the raw
discount field removed while the full CRUD/administrative shape retains
it; in particular the listing output for {name:"Mug", price:10,
discount:50} is exactly {name:"Mug", price:10, discounted_price:5}. -/
theorem C5_discount_field_projection :
    (∀ (i cat : Nat) (q : Int) (av : Bool) (cp : ℚ),
        productSearchRepr ⟨i, "Mug", cat, 10, q, 50, av, cp⟩ =
          [("name", .str "Mug"), ("price", .num 10), ("discounted_price", .num 5)]) ∧
    (∀ p : Product, "discount" ∉ recordKeys (productSearchRepr p)) ∧
    (∀ (p : Product) (categoryName createdAt updatedAt : String),
        "discount" ∉ recordKeys (productDetailRepr p categoryName createdAt updatedAt)) ∧
    (∀ (p : Product) (categoryName createdAt updatedAt : String),
        "discount" ∈ recordKeys (productFullRepr p categoryName createdAt updatedAt)) := by
  refine ⟨?_, ?_, ?_, ?_⟩
  · intro i cat q av cp
    simp only [productSearchRepr, remove_discount_fields, get_discounted_price]
    norm_num
    decide
  · intro p
    rw [show recordKeys (productSearchRepr p) =
      ["name", "price", "discounted_price"] from rfl]
    decide
  · intro p cn cr up
    rw [show recordKeys (productDetailRepr p cn cr up) =
      ["name", "category", "price", "discounted_price", "quantity",
       "created_at", "updated_at"] from rfl]
    decide
  · intro p cn cr up
    rw [show recordKeys (productFullRepr p cn cr up) =
      ["id", "name", "category", "price", "quantity", "discount", "available",
       "cost_price", "created_at", "updated_at"] from rfl]
    decide

/-- C6: with a product of the same name already stored, a schema-valid
Create Product request leaves the store unchanged but fails with the
uncaught `KeyError` of views.py line 124 rather than with the
Conflict-class response: the duplicate-name check at lines 131-136 is
unreachable. -/
theorem C6_duplicate_name_create_raises_keyError (lf : ℚ) (store : Store)
    (req : ProductCreateRequest) (vd : ValidatedProduct)
    (hvalid : productSerializerIsValid lf req = some vd)
    (_hdup : ∃ p ∈ store.products, p.name = vd.name) :
    productCreatePost lf store req = (.keyError "category_id", store) ∧
    (productCreatePost lf store req).1 ≠ .nameConflict := by
  have hk : productCreatePost lf store req = (.keyError "category_id", store) := by
    unfold productCreatePost
    rw [hvalid]
    simp [recordLookup, validatedDataRecord, List.lookup]
  refine ⟨hk, ?_⟩
  rw [hk]
  simp

/-- Witness for C6: a store already holding a product named "Mug" and a
schema-valid create request for the same name. -/
theorem C6_duplicate_name_create_raises_keyError_witness :
    productCreatePost (4/5) ⟨[⟨1, "Mug", 1, 10, 3, 0, true, 5⟩], [⟨1, "Drinkware"⟩]⟩
        ⟨some "Mug", some "Drinkware", some 10, some 3, some 0, some true, some 5⟩ =
      (.keyError "category_id", ⟨[⟨1, "Mug", 1, 10, 3, 0, true, 5⟩], [⟨1, "Drinkware"⟩]⟩) ∧
    (productCreatePost (4/5) ⟨[⟨1, "Mug", 1, 10, 3, 0, true, 5⟩], [⟨1, "Drinkware"⟩]⟩
        ⟨some "Mug", some "Drinkware", some 10, some 3, some 0, some true, some 5⟩).1 ≠
      .nameConflict :=
  C6_duplicate_name_create_raises_keyError (4/5)
    ⟨[⟨1, "Mug", 1, 10, 3, 0, true, 5⟩], [⟨1, "Drinkware"⟩]⟩
    ⟨some "Mug", some "Drinkware", some 10, some 3, some 0, some true, some 5⟩
    ⟨"Mug", "Drinkware", 10, 3, 0, true, 5⟩
    (by
      simp [productSerializerIsValid, productValidate]
      norm_num
      decide)
    ⟨⟨1, "Mug", 1, 10, 3, 0, true, 5⟩, by simp, rfl⟩

/-- C7: with no category stored at all (so the referenced category id
certainly does not exist), a schema-valid Create Product request leaves
the store unchanged but fails with the uncaught `KeyError` of views.py
line 124 rather than with the NotFound-class response: the
`ObjectDoesNotExist` handler at lines 125-129 is unreachable because the
`KeyError` is raised while evaluating the argument of
`Category.objects.get`. -/
theorem C7_missing_category_create_raises_keyError (lf : ℚ) (store : Store)
    (req : ProductCreateRequest) (vd : ValidatedProduct)
    (hvalid : productSerializerIsValid lf req = some vd)
    (_hempty : store.categories = []) :
    productCreatePost lf store req = (.keyError "category_id", store) ∧
    (productCreatePost lf store req).1 ≠ .categoryNotFound := by
  have hk : productCreatePost lf store req = (.keyError "category_id", store) := by
    unfold productCreatePost
    rw [hvalid]
    simp [recordLookup, validatedDataRecord, List.lookup]
  refine ⟨hk, ?_⟩
  rw [hk]
  simp

/-- Witness for C7: an empty store and a schema-valid create request. -/
theorem C7_missing_category_create_raises_keyError_witness :
    productCreatePost (4/5) ⟨[], []⟩
        ⟨some "Mug", some "Drinkware", some 10, some 3, some 0, some true, some 5⟩ =
      (.keyError "category_id", ⟨[], []⟩) ∧
    (productCreatePost (4/5) ⟨[], []⟩
        ⟨some "Mug", some "Drinkware", some 10, some 3, some 0, some true, some 5⟩).1 ≠
      .categoryNotFound :=
  C7_missing_category_create_raises_keyError (4/5) ⟨[], []⟩
    ⟨some "Mug", some "Drinkware", some 10, some 3, some 0, some true, some 5⟩
    ⟨"Mug", "Drinkware", 10, 3, 0, true, 5⟩
    (by
      simp [productSerializerIsValid, productValidate]
      norm_num
      decide)
    rfl

end OnlineStore
